import Mathlib

/-!
Shallow embedding of the MINIX filesystem image editor
(`src/MINIX_File_System.py`) and verification of the frozen claims.

The raw disk image is modelled as a total function from byte addresses to
byte values (`Disk`).  Reads are pure lookups, writes produce an updated
function.  Python `struct` little-endian (un)packing is modelled with
explicit `% 256` / division arithmetic on `Nat`.  Names travel as byte
lists (the Python code works on `bytes` after `.encode()`).
-/

/-! ## Constants (source lines 11-26) -/

def BLOCK_SIZE : Nat := 1024
def INODE_SIZE : Nat := 32
def BOOT_BLOCK : Nat := 1
def SUPER_BLOCK : Nat := 1
def EMPTY : Nat := 0
def MAX_FILENAME_SHORT : Nat := 14
def MAX_FILENAME_LONG : Nat := 30
def NUM_DIRECT_ZONES : Nat := 7
def INDIRECT_ZONE_INDEX : Nat := 7
def DOUBLE_INDIRECT_ZONE_INDEX : Nat := 8

def S_IFREG : Nat := 0x8000
def S_IFDIR : Nat := 0x4000
def S_IRUSR : Nat := 0x100
def S_IWUSR : Nat := 0x80
def S_IXUSR : Nat := 0x40

/-! ## Byte-addressed disk -/

/-- A disk image: byte address to byte value. -/
def Disk : Type := Nat → Nat

/-- `file.seek(off); file.read(len)` as a list of bytes. -/
def readBytes (d : Disk) (off len : Nat) : List Nat :=
  (List.range len).map (fun i => d (off + i))

/-- `file.seek(off); file.write(bs)`: overwrite `bs.length` bytes at `off`. -/
def writeBytes (d : Disk) (off : Nat) (bs : List Nat) : Disk :=
  fun a => if off ≤ a ∧ a < off + bs.length then bs.getD (a - off) 0 else d a

/-- Little-endian 16-bit value at index `i` of a byte buffer
(`struct.unpack "<H"`). -/
def le16At (bs : List Nat) (i : Nat) : Nat :=
  bs.getD i 0 + 256 * bs.getD (i + 1) 0

/-- Little-endian 32-bit value at index `i` of a byte buffer
(`struct.unpack "<I"`). -/
def le32At (bs : List Nat) (i : Nat) : Nat :=
  bs.getD i 0 + 256 * bs.getD (i + 1) 0 + 65536 * bs.getD (i + 2) 0
    + 16777216 * bs.getD (i + 3) 0

/-- `struct.pack "<H"`: two little-endian bytes.  (`struct.pack` requires
the value to be below 2^16; for such values this is exact.) -/
def le16 (n : Nat) : List Nat := [n % 256, n / 256 % 256]

/-- `struct.pack "<I"`: four little-endian bytes. -/
def le32 (n : Nat) : List Nat :=
  [n % 256, n / 256 % 256, n / 65536 % 256, n / 16777216 % 256]

/-- `bytes.rstrip(b'\x00')`: drop trailing zero bytes. -/
def rstripZeros (bs : List Nat) : List Nat :=
  (bs.reverse.dropWhile (fun b => b == 0)).reverse

/-- `bytes` slice `bs[i : i+k]`. -/
def listSlice (bs : List Nat) (i k : Nat) : List Nat := (bs.drop i).take k

/-! ## Superblock codec (source lines 32-53) -/

structure Superblock where
  num_inodes : Nat
  num_zones : Nat
  imap_blocks : Nat
  zmap_blocks : Nat
  first_data_zone : Nat
  log_zone_size : Nat
  max_file_size : Nat
  magic : Nat
  state : Nat
deriving Repr, DecidableEq

/-- `parse_superblock`: fields `H H H H H H I H H`, little-endian, at
offsets 0,2,4,6,8,10,12,16,18 of the superblock bytes. -/
def parse_superblock (sb_data : List Nat) : Superblock :=
  { num_inodes := le16At sb_data 0
    num_zones := le16At sb_data 2
    imap_blocks := le16At sb_data 4
    zmap_blocks := le16At sb_data 6
    first_data_zone := le16At sb_data 8
    log_zone_size := le16At sb_data 10
    max_file_size := le32At sb_data 12
    magic := le16At sb_data 16
    state := le16At sb_data 18 }

/-- Name-field width selection from `__main__`:
`MAX_FILENAME_LONG if magic == 0x138F else MAX_FILENAME_SHORT`. -/
def max_filename_length (magic : Nat) : Nat :=
  if magic = 0x138F then MAX_FILENAME_LONG else MAX_FILENAME_SHORT

/-! ## Inode table accessor (source lines 59-80, 244-259) -/

structure Inode where
  i_mode : Nat
  i_uid : Nat
  i_size : Nat
  i_time : Nat
  i_gid : Nat
  i_nlinks : Nat
  i_zone : List Nat
deriving Repr, DecidableEq

/-- Byte offset of inode `n` (`n ≥ 1`):
`(BOOT_BLOCK + SUPER_BLOCK + imap_blocks + zmap_blocks) * BLOCK_SIZE
 + (n - 1) * INODE_SIZE`. -/
def inode_offset (sb : Superblock) (n : Nat) : Nat :=
  (BOOT_BLOCK + SUPER_BLOCK + sb.imap_blocks + sb.zmap_blocks) * BLOCK_SIZE
    + (n - 1) * INODE_SIZE

/-- `struct.unpack "<HHIIBB9H"` of a 32-byte inode record:
mode@0, uid@2, size@4, time@8, gid@12, nlinks@13, nine zones from 14. -/
def unpack_inode (bs : List Nat) : Inode :=
  { i_mode := le16At bs 0
    i_uid := le16At bs 2
    i_size := le32At bs 4
    i_time := le32At bs 8
    i_gid := bs.getD 12 0
    i_nlinks := bs.getD 13 0
    i_zone := [le16At bs 14, le16At bs 16, le16At bs 18, le16At bs 20,
               le16At bs 22, le16At bs 24, le16At bs 26, le16At bs 28,
               le16At bs 30] }

/-- `parse_inode`: read the 32-byte record at the computed offset and
unpack it. -/
def parse_inode (d : Disk) (sb : Superblock) (inode_number : Nat) : Inode :=
  unpack_inode (readBytes d (inode_offset sb inode_number) INODE_SIZE)

/-- `struct.pack "<HHIIBB9H"`.  (`struct.pack` raises for out-of-range
values; the round-trip theorem carries the corresponding bounds.) -/
def pack_inode (mode uid size time gid nlinks : Nat) (zones : List Nat) :
    List Nat :=
  le16 mode ++ le16 uid ++ le32 size ++ le32 time ++ [gid, nlinks]
    ++ zones.flatMap le16

/-! ## Directory codec (source lines 86-102, 190-228) -/

/-- Entry offsets within one block: `range(0, BLOCK_SIZE, entry_size)`
with `entry_size = 2 + width`. -/
def dir_offsets (width : Nat) : List Nat :=
  List.range' 0 ((BLOCK_SIZE + (2 + width) - 1) / (2 + width)) (2 + width)

/-- Name field of the entry at `off` inside a directory block. -/
def entry_name (bd : List Nat) (off width : Nat) : List Nat :=
  listSlice bd (off + 2) width

/-- The cleaned filenames of one directory block, in in-block order,
skipping entries whose inode number is 0 (inner loop of
`read_root_directory_entries`). -/
def block_dir_names (d : Disk) (zone width : Nat) : List (List Nat) :=
  (dir_offsets width).foldl
    (fun acc off =>
      if le16At (readBytes d (zone * BLOCK_SIZE) BLOCK_SIZE) off ≠ 0 then
        acc ++ [rstripZeros
          (entry_name (readBytes d (zone * BLOCK_SIZE) BLOCK_SIZE) off width)]
      else acc) []

/-- `read_root_directory_entries`: parse inode 1, then for every one of
its nine zone-slot values, if non-zero, read that block and collect the
cleaned names. -/
def read_root_directory_entries (d : Disk) (sb : Superblock) (width : Nat) :
    List (List Nat) :=
  (parse_inode d sb 1).i_zone.foldl
    (fun acc z => if z ≠ 0 then acc ++ block_dir_names d z width else acc) []

/-- Inner loop of `find_inode_of_directory`: first entry of the block
whose trimmed name equals `name`; yields its inode number (the entry's
inode number is not checked against 0). -/
def block_find (d : Disk) (zone : Nat) (name : List Nat) (width : Nat) :
    Option Nat :=
  (dir_offsets width).findSome?
    (fun off =>
      if rstripZeros
          (entry_name (readBytes d (zone * BLOCK_SIZE) BLOCK_SIZE) off width)
          = name then
        some (le16At (readBytes d (zone * BLOCK_SIZE) BLOCK_SIZE) off)
      else none)

/-- `find_inode_of_directory`: scan the nine zone-slot values of the
given inode, each non-zero one read directly as a block of entries;
return the first name match, `none` when absent. -/
def find_inode_of_directory (d : Disk) (sb : Superblock) (name : List Nat)
    (width root_inode_number : Nat) : Option Nat :=
  (parse_inode d sb root_inode_number).i_zone.findSome?
    (fun z => if z ≠ 0 then block_find d z name width else none)

/-! ## Zone fetching and content reader (source lines 123-185) -/

/-- `fetch_indirect_block_addresses`: unpack 512 little-endian 16-bit
entries from the block and keep the non-zero ones in order. -/
def fetch_indirect_block_addresses (d : Disk) (block_num : Nat) : List Nat :=
  ((List.range (BLOCK_SIZE / 2)).map
      (fun k => le16At (readBytes d (block_num * BLOCK_SIZE) BLOCK_SIZE) (2 * k))).filter
    (fun z => z != 0)

/-- `fetch_double_indirect_block_addresses`: expand each entry of the
indirect block as an indirect block itself, outer order major. -/
def fetch_double_indirect_block_addresses (d : Disk) (block_num : Nat) :
    List Nat :=
  (fetch_indirect_block_addresses d block_num).flatMap
    (fun a => fetch_indirect_block_addresses d a)

/-- The indirect/double-indirect reading loops of `read_file_data`:
break when nothing remains, otherwise read `min BLOCK_SIZE remaining`
bytes from each block. -/
def readLoopBreak (d : Disk) : List Nat → List Nat × Nat → List Nat × Nat
  | [], st => st
  | z :: zs, st =>
    if st.2 = 0 then st
    else
      readLoopBreak d zs
        (st.1 ++ readBytes d (z * BLOCK_SIZE) (min BLOCK_SIZE st.2),
         st.2 - min BLOCK_SIZE st.2)

/-- The direct-zone loop of `read_file_data`: skip a zone when it is 0
or nothing remains, otherwise read `min BLOCK_SIZE remaining` bytes. -/
def readDirectFold (d : Disk) (zs : List Nat) (st : List Nat × Nat) :
    List Nat × Nat :=
  zs.foldl
    (fun st z =>
      if z ≠ 0 ∧ 0 < st.2 then
        (st.1 ++ readBytes d (z * BLOCK_SIZE) (min BLOCK_SIZE st.2),
         st.2 - min BLOCK_SIZE st.2)
      else st) st

/-- `read_file_data`: direct zones (skipping zeros while bytes remain),
then the indirect chain, then the double-indirect chain; each read is
`min BLOCK_SIZE remaining` bytes; returns whatever was gathered. -/
def read_file_data (d : Disk) (inode : Inode) : List Nat :=
  let s1 := readDirectFold d (inode.i_zone.take NUM_DIRECT_ZONES)
    (([] : List Nat), inode.i_size)
  let s2 :=
    if 0 < s1.2 ∧ inode.i_zone.getD INDIRECT_ZONE_INDEX 0 ≠ 0 then
      readLoopBreak d
        (fetch_indirect_block_addresses d
          (inode.i_zone.getD INDIRECT_ZONE_INDEX 0)) s1
    else s1
  let s3 :=
    if 0 < s2.2 ∧ inode.i_zone.getD DOUBLE_INDIRECT_ZONE_INDEX 0 ≠ 0 then
      readLoopBreak d
        (fetch_double_indirect_block_addresses d
          (inode.i_zone.getD DOUBLE_INDIRECT_ZONE_INDEX 0)) s2
    else s2
  s3.1

/-! ## Allocator scans (source lines 236-242, 268-275, 289-297, 323-330) -/

/-- First-fit free-inode scan: `for inode_number in range(1, num_inodes+1)`
looking for `i_nlinks == 0` (shared by `create_new_file` and
`create_new_directory`). -/
def free_inode_scan (d : Disk) (sb : Superblock) : Option Nat :=
  (List.range' 1 sb.num_inodes).find?
    (fun n => (parse_inode d sb n).i_nlinks == 0)

/-- First-fit free-directory-entry scan inside ONE block:
`for offset in range(0, BLOCK_SIZE, entry_size)` looking for
`inode_num == 0` (shared loop of `create_new_file` and
`create_new_directory`; both apply it only to the block at the
directory's zone slot 0). -/
def free_slot_scan (d : Disk) (block width : Nat) : Option Nat :=
  (dir_offsets width).find?
    (fun off => le16At (readBytes d (block * BLOCK_SIZE) BLOCK_SIZE) off == 0)

/-- `name.ljust(width, '\x00')` followed by `struct.pack "<H{width}s"`
semantics on the name field (pad with zeros, truncate to `width`). -/
def pad_name (name : List Nat) (width : Nat) : List Nat :=
  ((name ++ List.replicate width 0).take width)

/-- `struct.pack(entry_format, inode_number, padded_name)`. -/
def pack_dirent (inode_number : Nat) (name : List Nat) (width : Nat) :
    List Nat :=
  le16 inode_number ++ pad_name name width

/-- The inode record written by `create_new_file` (source lines 249-256):
regular file, owner rwx, size 0, nlinks 1, all zones empty. -/
def new_file_inode_bytes (now : Nat) : List Nat :=
  pack_inode (S_IFREG + S_IRUSR + S_IWUSR + S_IXUSR) 0 0 now 0 1
    (List.replicate 9 0)

/-- The inode record written by `create_new_directory` (source lines
304-311): directory, owner rwx, size one block, nlinks 2, all zones
empty. -/
def new_dir_inode_bytes (now : Nat) : List Nat :=
  pack_inode (S_IFDIR + S_IRUSR + S_IWUSR + S_IXUSR) 0 BLOCK_SIZE now 0 2
    (List.replicate 9 0)

/-! ## Mutating operations

Each operation returns the (possibly updated) disk together with an
optional failure.  A `some`-failure constructor whose name starts with
`py` models a dynamic Python exception (an uncontrolled abort), raised at
the indicated source line before any later step of the operation runs. -/

inductive CreateErr where
  | noFreeInodes
  | noFreeDirEntry
deriving Repr, DecidableEq

inductive MkdirErr where
  | noFreeInodes
  | noFreeDirEntry
  /-- Source line 337 evaluates `sb_dict["nzones"]`, but `parse_superblock`
  only defines the key `num_zones`; Python raises `KeyError` there, before
  the free-data-block scan can run. -/
  | pyKeyError_nzones
deriving Repr, DecidableEq

inductive AppendErr where
  | nameNotFound
  /-- Source line 376 calls `read_file_data(file, sb_dict, file_inode)`,
  but `read_file_data` (line 152) has exactly two parameters; Python
  raises `TypeError` there, before any byte is written. -/
  | pyTypeError_readFileData
deriving Repr, DecidableEq

/-- `create_new_file` (source lines 233-280): find a free inode (else
report), write its record, scan the block at the root inode's zone
slot 0 for a free entry (else report), write the new entry. -/
def create_new_file (d : Disk) (sb : Superblock) (filename : List Nat)
    (width now : Nat) : Disk × Option CreateErr :=
  let root := parse_inode d sb 1
  match free_inode_scan d sb with
  | none => (d, some CreateErr.noFreeInodes)
  | some inode_number =>
    let d1 := writeBytes d (inode_offset sb inode_number)
      (new_file_inode_bytes now)
    let root_dir_block := root.i_zone.getD 0 0
    match free_slot_scan d1 root_dir_block width with
    | none => (d1, some CreateErr.noFreeDirEntry)
    | some off =>
      (writeBytes d1 (root_dir_block * BLOCK_SIZE + off)
        (pack_dirent inode_number filename width), none)

/-- `create_new_directory` (source lines 285-354): find a free inode,
write the directory inode record, write the root entry, then abort with
`KeyError` at the `sb_dict["nzones"]` access of the free-data-block scan
(source line 337); the data-block initialisation never runs. -/
def create_new_directory (d : Disk) (sb : Superblock) (dirname : List Nat)
    (width now : Nat) : Disk × Option MkdirErr :=
  let root := parse_inode d sb 1
  match free_inode_scan d sb with
  | none => (d, some MkdirErr.noFreeInodes)
  | some free_inode_number =>
    let d1 := writeBytes d (inode_offset sb free_inode_number)
      (new_dir_inode_bytes now)
    let root_dir_block := root.i_zone.getD 0 0
    match free_slot_scan d1 root_dir_block width with
    | none => (d1, some MkdirErr.noFreeDirEntry)
    | some off =>
      let d2 := writeBytes d1 (root_dir_block * BLOCK_SIZE + off)
        (pack_dirent free_inode_number dirname width)
      (d2, some MkdirErr.pyKeyError_nzones)

/-- `append_to_file` (source lines 360-423): scan the directory for the
filename; when absent report not-found; when found the body immediately
calls `read_file_data` with three arguments (source line 376) and aborts
with `TypeError` before writing anything. -/
def append_to_file (d : Disk) (sb : Superblock) (dir_inode_number : Nat)
    (filename data : List Nat) (width now : Nat) : Disk × Option AppendErr :=
  match find_inode_of_directory d sb filename width dir_inode_number with
  | none => (d, some AppendErr.nameNotFound)
  | some _ => (d, some AppendErr.pyTypeError_readFileData)

/-! ## Spec-side definitions used by refinement claims -/

/-- Modelled from §4.3 of the spec: the ordered physical blocks a file
occupies (direct, then indirect, then double-indirect, zeros skipped). -/
def resolved_zones (d : Disk) (inode : Inode) : List Nat :=
  (inode.i_zone.take NUM_DIRECT_ZONES).filter (fun z => z != 0)
    ++ (if inode.i_zone.getD INDIRECT_ZONE_INDEX 0 ≠ 0 then
          fetch_indirect_block_addresses d
            (inode.i_zone.getD INDIRECT_ZONE_INDEX 0)
        else [])
    ++ (if inode.i_zone.getD DOUBLE_INDIRECT_ZONE_INDEX 0 ≠ 0 then
          fetch_double_indirect_block_addresses d
            (inode.i_zone.getD DOUBLE_INDIRECT_ZONE_INDEX 0)
        else [])

/-- Claim C6's reading of the listing loop: all nine zone-slot values of
inode 1, slot order, each non-zero value read directly as one block of
directory entries. -/
def scan_slots_as_dir_blocks (d : Disk) (sb : Superblock) (width : Nat) :
    List (List Nat) :=
  (List.range 9).flatMap
    (fun k =>
      if (parse_inode d sb 1).i_zone.getD k 0 ≠ 0 then
        block_dir_names d ((parse_inode d sb 1).i_zone.getD k 0) width
      else [])

/-- Claim C6's reading of the lookup loop: first match over all nine
zone-slot values, each non-zero value read directly as a block. -/
def scan_slots_find (d : Disk) (sb : Superblock) (name : List Nat)
    (width root_inode_number : Nat) : Option Nat :=
  (List.range 9).findSome?
    (fun k =>
      if (parse_inode d sb root_inode_number).i_zone.getD k 0 ≠ 0 then
        block_find d ((parse_inode d sb root_inode_number).i_zone.getD k 0)
          name width
      else none)

/-- All directory entries (inode number, trimmed name) of a directory
inode in scan order, deleted-or-empty slots (inode number 0) included. -/
def all_dir_entries (d : Disk) (sb : Superblock)
    (width root_inode_number : Nat) : List (Nat × List Nat) :=
  (parse_inode d sb root_inode_number).i_zone.flatMap
    (fun z =>
      if z ≠ 0 then
        (dir_offsets width).map
          (fun off =>
            (le16At (readBytes d (z * BLOCK_SIZE) BLOCK_SIZE) off,
             rstripZeros
               (entry_name (readBytes d (z * BLOCK_SIZE) BLOCK_SIZE) off width)))
      else [])

/-! ## Concrete images

Sparse byte maps (every unmentioned byte is 0).  Layout shared by all:
boot block 0, superblock at byte 1024, `imap_blocks = zmap_blocks = 1`,
inode table at block 4 (byte 4096), first data zone 6, magic 0x137F
(14-byte names, entry size 16). -/

/-- Image for Scenario A and the witnesses: 2 inodes; root inode 1
(mode 0x41C0, size 1024, nlinks 2, zone slot 0 = block 6); inode 2 free;
block 6 holds one entry (inode 5, name `foo`) and empty slots after it. -/
def imgA : Disk := fun a =>
  if a = 1024 then 2          -- num_inodes = 2
  else if a = 1026 then 8     -- num_zones = 8
  else if a = 1028 then 1     -- imap_blocks = 1
  else if a = 1030 then 1     -- zmap_blocks = 1
  else if a = 1032 then 6     -- first_data_zone = 6
  else if a = 1040 then 127   -- magic lo: 0x137F
  else if a = 1041 then 19    -- magic hi
  else if a = 1042 then 1     -- state = 1
  else if a = 4096 then 192   -- root i_mode lo: 0x41C0
  else if a = 4097 then 65    -- root i_mode hi
  else if a = 4101 then 4     -- root i_size = 1024
  else if a = 4109 then 2     -- root i_nlinks = 2
  else if a = 4110 then 6     -- root zone slot 0 = 6
  else if a = 6144 then 5     -- block 6, entry 0: inode 5
  else if a = 6146 then 102   -- 'f'
  else if a = 6147 then 111   -- 'o'
  else if a = 6148 then 111   -- 'o'
  else 0

/-- Superblock of `imgA`, read the way `__main__` does. -/
def sbA : Superblock := parse_superblock (readBytes imgA BLOCK_SIZE BLOCK_SIZE)

/-- Image for Scenario D: a single inode (the root, `nlinks = 2`), so
every inode is in use. -/
def imgD : Disk := fun a =>
  if a = 1024 then 1          -- num_inodes = 1
  else if a = 1026 then 8 else if a = 1028 then 1 else if a = 1030 then 1
  else if a = 1032 then 6 else if a = 1040 then 127 else if a = 1041 then 19
  else if a = 1042 then 1
  else if a = 4096 then 192 else if a = 4097 then 65
  else if a = 4101 then 4 else if a = 4109 then 2 else if a = 4110 then 6
  else 0

def sbD : Superblock := parse_superblock (readBytes imgD BLOCK_SIZE BLOCK_SIZE)

/-- Image for the C4 counterexample: root zone 0 = block 6; block 6
entry 0 is a cleared slot (inode 0) whose name field still reads `x`;
entry 1 maps `x` to inode 7. -/
def imgE : Disk := fun a =>
  if a = 1024 then 2 else if a = 1026 then 8 else if a = 1028 then 1
  else if a = 1030 then 1 else if a = 1032 then 6
  else if a = 1040 then 127 else if a = 1041 then 19 else if a = 1042 then 1
  else if a = 4096 then 192 else if a = 4097 then 65
  else if a = 4101 then 4 else if a = 4109 then 2 else if a = 4110 then 6
  else if a = 6146 then 120   -- entry 0: inode 0, name 'x'
  else if a = 6160 then 7     -- entry 1: inode 7
  else if a = 6162 then 120   -- name 'x'
  else 0

def sbE : Superblock := parse_superblock (readBytes imgE BLOCK_SIZE BLOCK_SIZE)

/-- Image for the C5 counterexample: root owns two zones (slot 0 =
block 6, slot 1 = block 7); every one of the 64 entries of block 6 has a
non-zero inode number; block 7 is all zero, so its entry slots are free;
inode 2 is free; `num_zones = 9`. -/
def imgF : Disk := fun a =>
  if 6144 ≤ a ∧ a < 7168 ∧ a % 16 = 0 then 1   -- block 6: all inodes = 1
  else if a = 1024 then 2 else if a = 1026 then 9 else if a = 1028 then 1
  else if a = 1030 then 1 else if a = 1032 then 6
  else if a = 1040 then 127 else if a = 1041 then 19 else if a = 1042 then 1
  else if a = 4096 then 192 else if a = 4097 then 65
  else if a = 4101 then 4 else if a = 4109 then 2
  else if a = 4110 then 6     -- root zone slot 0 = 6
  else if a = 4112 then 7     -- root zone slot 1 = 7
  else 0

def sbF : Superblock := parse_superblock (readBytes imgF BLOCK_SIZE BLOCK_SIZE)

/-- `"foo"` as bytes. -/
def nmFoo : List Nat := [102, 111, 111]
/-- `"sub"` as bytes. -/
def nmSub : List Nat := [115, 117, 98]
/-- `"bar"` as bytes. -/
def nmBar : List Nat := [98, 97, 114]
/-- `"x"` as bytes. -/
def nmX : List Nat := [120]

/-! ## General helper lemmas -/

theorem length_readBytes (d : Disk) (off len : Nat) :
    (readBytes d off len).length = len := by
  simp [readBytes]

theorem writeBytes_at (d : Disk) (off : Nat) (bs : List Nat) (k : Nat)
    (h : k < bs.length) : writeBytes d off bs (off + k) = bs.getD k 0 := by
  unfold writeBytes
  rw [if_pos ⟨Nat.le_add_right _ _, by omega⟩, Nat.add_sub_cancel_left]

theorem readBytes_writeBytes (d : Disk) (off : Nat) (bs : List Nat) (n : Nat)
    (h : bs.length = n) : readBytes (writeBytes d off bs) off n = bs := by
  subst h
  apply List.ext_getElem
  · simp [readBytes]
  · intro i h1 h2
    simp only [readBytes, List.getElem_map, List.getElem_range]
    rw [writeBytes_at d off bs i h2, List.getD_eq_getElem]

theorem find?_range'_first (p : Nat → Bool) (step : Nat) :
    ∀ (n s k : Nat), (List.range' s n step).find? p = some k →
      p k = true ∧ k ∈ List.range' s n step ∧
        ∀ m ∈ List.range' s n step, m < k → p m = false := by
  intro n
  induction n with
  | zero => intro s k h; simp [List.range'] at h
  | succ n ih =>
    intro s k h
    rw [List.range'_succ] at h
    by_cases hs : p s = true
    · rw [List.find?_cons_of_pos _ hs] at h
      injection h with h
      subst h
      refine ⟨hs, by rw [List.range'_succ]; exact List.mem_cons_self _ _, ?_⟩
      intro m hm hmk
      rw [List.range'_succ] at hm
      rcases List.mem_cons.mp hm with rfl | hm'
      · omega
      · obtain ⟨i, _, rfl⟩ := List.mem_range'.mp hm'
        omega
    · rw [List.find?_cons_of_neg _ hs] at h
      obtain ⟨hpk, hmem, hfirst⟩ := ih (s + step) k h
      refine ⟨hpk, by rw [List.range'_succ]; exact List.mem_cons_of_mem _ hmem, ?_⟩
      intro m hm hmk
      rw [List.range'_succ] at hm
      rcases List.mem_cons.mp hm with rfl | hm'
      · cases hps : p m with
        | true => exact absurd hps hs
        | false => rfl
      · exact hfirst m hm' hmk

theorem findSome?_append_eq {α β : Type} (f : α → Option β) :
    ∀ (l1 l2 : List α), (l1 ++ l2).findSome? f =
      match l1.findSome? f with
      | some b => some b
      | none => l2.findSome? f := by
  intro l1
  induction l1 with
  | nil => intro l2; simp
  | cons a l ih =>
    intro l2
    rw [List.cons_append, List.findSome?_cons, List.findSome?_cons]
    cases f a with
    | some b => rfl
    | none => exact ih l2

theorem find?_append_eq {α : Type} (p : α → Bool) :
    ∀ (l1 l2 : List α), (l1 ++ l2).find? p =
      match l1.find? p with | some x => some x | none => l2.find? p := by
  intro l1
  induction l1 with
  | nil => intro l2; simp
  | cons a l ih =>
    intro l2
    rw [List.cons_append, List.find?_cons, List.find?_cons]
    cases p a with
    | true => rfl
    | false => exact ih l2

theorem foldl_guard_append {α : Type} (B : Nat → List α) :
    ∀ (zs : List Nat) (acc : List α),
      zs.foldl (fun a z => if z ≠ 0 then a ++ B z else a) acc =
        acc ++ zs.flatMap (fun z => if z ≠ 0 then B z else []) := by
  intro zs
  induction zs with
  | nil => intro acc; simp
  | cons z zs ih =>
    intro acc
    simp only [List.foldl_cons, List.flatMap_cons]
    by_cases hz : z = 0
    · rw [if_neg (show ¬z ≠ 0 by simp [hz]), if_neg (show ¬z ≠ 0 by simp [hz]),
        ih, List.nil_append]
    · rw [if_pos hz, if_pos hz, ih, List.append_assoc]

/-! ## Length accounting for the content reader -/

theorem readLoopBreak_spec (d : Disk) :
    ∀ (zs : List Nat) (st : List Nat × Nat),
      (readLoopBreak d zs st).1.length
          = st.1.length + min st.2 (BLOCK_SIZE * zs.length) ∧
        (readLoopBreak d zs st).2 = st.2 - min st.2 (BLOCK_SIZE * zs.length) := by
  intro zs
  induction zs with
  | nil => intro st; simp [readLoopBreak]
  | cons z zs ih =>
    intro st
    simp only [readLoopBreak, List.length_cons, BLOCK_SIZE]
    by_cases h0 : st.2 = 0
    · rw [if_pos h0]
      constructor <;> omega
    · rw [if_neg h0]
      obtain ⟨ih1, ih2⟩ := ih
        (st.1 ++ readBytes d (z * BLOCK_SIZE) (min BLOCK_SIZE st.2),
         st.2 - min BLOCK_SIZE st.2)
      simp only [BLOCK_SIZE] at ih1 ih2
      rw [ih1, ih2]
      simp only [List.length_append, length_readBytes]
      constructor <;> omega

theorem readDirectFold_spec (d : Disk) :
    ∀ (zs : List Nat) (st : List Nat × Nat),
      (readDirectFold d zs st).1.length
          = st.1.length
            + min st.2 (BLOCK_SIZE * ((zs.filter (fun z => z != 0)).length)) ∧
        (readDirectFold d zs st).2
          = st.2 - min st.2 (BLOCK_SIZE * ((zs.filter (fun z => z != 0)).length)) := by
  intro zs
  induction zs with
  | nil => intro st; simp [readDirectFold]
  | cons z zs ih =>
    intro st
    simp only [readDirectFold, List.foldl_cons, List.filter_cons] at *
    by_cases hz : z = 0
    · rw [if_neg (by simp [hz])]
      have : ((z != 0) : Bool) = false := by simp [hz]
      rw [this]
      simpa using ih st
    · have hzb : ((z != 0) : Bool) = true := by simp [hz]
      rw [hzb]
      simp only [if_true, List.length_cons]
      by_cases h0 : 0 < st.2
      · rw [if_pos ⟨hz, h0⟩]
        obtain ⟨ih1, ih2⟩ := ih
          (st.1 ++ readBytes d (z * BLOCK_SIZE) (min BLOCK_SIZE st.2),
           st.2 - min BLOCK_SIZE st.2)
        rw [ih1, ih2]
        simp only [List.length_append, length_readBytes, BLOCK_SIZE]
        constructor <;> omega
      · rw [if_neg (by tauto)]
        obtain ⟨ih1, ih2⟩ := ih st
        rw [ih1, ih2]
        simp only [BLOCK_SIZE]
        constructor <;> omega

theorem readStage_spec (d : Disk) (st : List Nat × Nat) (slot : Nat)
    (fetch : List Nat) :
    ((if 0 < st.2 ∧ slot ≠ 0 then readLoopBreak d fetch st else st).1.length
        = st.1.length
          + min st.2 (BLOCK_SIZE * ((if slot ≠ 0 then fetch else []).length))) ∧
      ((if 0 < st.2 ∧ slot ≠ 0 then readLoopBreak d fetch st else st).2
        = st.2
          - min st.2 (BLOCK_SIZE * ((if slot ≠ 0 then fetch else []).length))) := by
  by_cases hs : slot ≠ 0
  · by_cases h0 : 0 < st.2
    · rw [if_pos ⟨h0, hs⟩, if_pos hs]
      exact readLoopBreak_spec d fetch st
    · rw [if_neg (by tauto), if_pos hs]
      constructor <;> omega
  · rw [if_neg (by tauto), if_neg hs]
    simp

/-! ## Claim theorems -/

/-- C9: `read` resolves zones in order (direct, then indirect, then
double-indirect), reads `min BLOCK_SIZE remaining` bytes from each
resolved block, stops at `remaining = 0` or zone exhaustion, and on
exhaustion returns whatever was read (length `min size (1024 * #blocks)`);
in particular an inode with `size = 2500` and zones
`[10, 11, 12, 0, …, 0]` yields 1024 bytes of zone 10, 1024 of zone 11 and
452 of zone 12. -/
theorem c9_read_file_data_best_effort :
    (∀ (d : Disk) (inode : Inode),
      (read_file_data d inode).length
        = min inode.i_size (BLOCK_SIZE * (resolved_zones d inode).length)) ∧
    (∀ d : Disk,
      read_file_data d ⟨S_IFREG, 0, 2500, 0, 0, 1, [10, 11, 12, 0, 0, 0, 0, 0, 0]⟩
        = readBytes d (10 * BLOCK_SIZE) 1024
            ++ readBytes d (11 * BLOCK_SIZE) 1024
            ++ readBytes d (12 * BLOCK_SIZE) 452) := by
  constructor
  · intro d inode
    simp only [read_file_data]
    obtain ⟨c1, _⟩ := readStage_spec d
      (if 0 < (readDirectFold d (inode.i_zone.take NUM_DIRECT_ZONES)
            ([], inode.i_size)).2
          ∧ inode.i_zone.getD INDIRECT_ZONE_INDEX 0 ≠ 0 then
        readLoopBreak d
          (fetch_indirect_block_addresses d
            (inode.i_zone.getD INDIRECT_ZONE_INDEX 0))
          (readDirectFold d (inode.i_zone.take NUM_DIRECT_ZONES)
            ([], inode.i_size))
      else
        readDirectFold d (inode.i_zone.take NUM_DIRECT_ZONES)
          ([], inode.i_size))
      (inode.i_zone.getD DOUBLE_INDIRECT_ZONE_INDEX 0)
      (fetch_double_indirect_block_addresses d
        (inode.i_zone.getD DOUBLE_INDIRECT_ZONE_INDEX 0))
    rw [c1]
    obtain ⟨b1, b2⟩ := readStage_spec d
      (readDirectFold d (inode.i_zone.take NUM_DIRECT_ZONES) ([], inode.i_size))
      (inode.i_zone.getD INDIRECT_ZONE_INDEX 0)
      (fetch_indirect_block_addresses d (inode.i_zone.getD INDIRECT_ZONE_INDEX 0))
    rw [b1, b2]
    obtain ⟨a1, a2⟩ := readDirectFold_spec d (inode.i_zone.take NUM_DIRECT_ZONES)
      ([], inode.i_size)
    rw [a1, a2]
    simp only [resolved_zones, List.length_append, List.length_nil,
      Nat.zero_add, BLOCK_SIZE]
    split_ifs <;> (try simp only [List.length_nil]) <;> omega
  · intro d
    simp [read_file_data, readDirectFold, NUM_DIRECT_ZONES,
      INDIRECT_ZONE_INDEX, DOUBLE_INDIRECT_ZONE_INDEX, BLOCK_SIZE,
      Nat.min_def, List.append_assoc]

theorem option_map_findSome? {α β γ : Type} (h : β → γ) (g : α → Option β) :
    ∀ l : List α, (l.findSome? g).map h = l.findSome? (fun x => (g x).map h) := by
  intro l
  induction l with
  | nil => simp
  | cons a l ih =>
    rw [List.findSome?_cons, List.findSome?_cons]
    cases g a <;> simp [ih]

theorem findSome?_guard_eq_find?_map {α β : Type} (h : α → β)
    (nm : α → List Nat) (name : List Nat) :
    ∀ l : List α,
      (l.findSome? (fun x => if nm x = name then some (h x) else none))
        = (l.find? (fun x => nm x == name)).map h := by
  intro l
  induction l with
  | nil => simp
  | cons x l ih =>
    by_cases hx : nm x = name
    · rw [List.find?_cons_of_pos _ (by simpa using hx)]
      simp [List.findSome?_cons, hx]
    · rw [List.find?_cons_of_neg _ (by simpa using hx)]
      simp only [List.findSome?_cons, if_neg hx]
      exact ih

set_option maxRecDepth 10000

/-- C6: listing and lookup iterate all 9 zone-slot values of the
directory inode — the indirect slot at index 7 and the double-indirect
slot at index 8 included — reading each non-zero slot value directly as
one 1024-byte block of directory entries; the indirect slots are never
expanded as blocks of zone numbers. -/
theorem c6_scan_all_nine_slots :
    (∀ (d : Disk) (sb : Superblock) (width : Nat),
      read_root_directory_entries d sb width
        = scan_slots_as_dir_blocks d sb width) ∧
    (∀ (d : Disk) (sb : Superblock) (name : List Nat)
        (width root_inode_number : Nat),
      find_inode_of_directory d sb name width root_inode_number
        = scan_slots_find d sb name width root_inode_number) := by
  constructor
  · intro d sb width
    rw [read_root_directory_entries, foldl_guard_append, List.nil_append,
      scan_slots_as_dir_blocks]
    rfl
  · intro d sb name width root_inode_number
    rfl

/-- C10: the directory-entry name-field width is 30 iff the magic is
0x138F and 14 otherwise; listing the root of the magic-0x137F image
whose single root zone holds the entry (`foo`, inode 5) followed by
empty slots yields exactly `foo`. -/
theorem c10_scenario_a_listing :
    max_filename_length 0x137F = MAX_FILENAME_SHORT ∧
    max_filename_length 0x138F = MAX_FILENAME_LONG ∧
    sbA.magic = 0x137F ∧
    read_root_directory_entries imgA sbA (max_filename_length sbA.magic)
      = [[102, 111, 111]] :=
  ⟨by decide, by decide, by decide, by decide⟩

/-- C7: the free-inode scan visits inode numbers 1..num_inodes in
ascending order and yields the first one with `nlinks = 0`, never a used
one; when every inode is used, `create_new_file` reports "no free
inodes" and returns the image unchanged. -/
theorem c7_free_inode_first_fit :
    (∀ (d : Disk) (sb : Superblock) (n : Nat),
      free_inode_scan d sb = some n →
        (parse_inode d sb n).i_nlinks = 0 ∧ 1 ≤ n ∧ n ≤ sb.num_inodes ∧
          ∀ m, 1 ≤ m → m < n → (parse_inode d sb m).i_nlinks ≠ 0) ∧
    (∀ (d : Disk) (sb : Superblock) (filename : List Nat) (width now : Nat),
      (∀ k ∈ List.range' 1 sb.num_inodes, (parse_inode d sb k).i_nlinks ≠ 0) →
        create_new_file d sb filename width now
          = (d, some CreateErr.noFreeInodes)) := by
  constructor
  · intro d sb n h
    obtain ⟨hp, hmem, hfirst⟩ :=
      find?_range'_first (fun k => (parse_inode d sb k).i_nlinks == 0) 1
        sb.num_inodes 1 n h
    obtain ⟨i, hi, rfl⟩ := List.mem_range'.mp hmem
    refine ⟨by simpa using hp, by omega, by omega, ?_⟩
    intro m h1 h2
    have hm : m ∈ List.range' 1 sb.num_inodes := by
      rw [List.mem_range']
      exact ⟨m - 1, by omega, by omega⟩
    have := hfirst m hm h2
    simpa using this
  · intro d sb filename width now h
    have hnone : free_inode_scan d sb = none := by
      rw [free_inode_scan, List.find?_eq_none]
      intro x hx
      simpa using h x hx
    simp [create_new_file, hnone]

/-- C7 witness: on the one-inode image whose only inode is in use, the
scan hypothesis holds and `create_new_file` reports "no free inodes"
leaving the image unchanged. -/
theorem c7_free_inode_first_fit_witness :
    (∀ k ∈ List.range' 1 sbD.num_inodes, (parse_inode imgD sbD k).i_nlinks ≠ 0) ∧
    create_new_file imgD sbD nmBar 14 0 = (imgD, some CreateErr.noFreeInodes) :=
  ⟨by decide, c7_free_inode_first_fit.2 imgD sbD nmBar 14 0 (by decide)⟩

/-- C1 (code bug): whenever `create_new_directory` gets past the free-inode
and free-slot scans — exactly the situation of Scenario C — it aborts with
the `KeyError` of the `sb_dict["nzones"]` access (source line 337; the
superblock parser defines `num_zones`, never `nzones`), so no free data
block is found and the `.`/`..` block is never initialised. -/
theorem c1_create_directory_keyerror (d : Disk) (sb : Superblock)
    (dirname : List Nat) (width now n off : Nat)
    (h1 : free_inode_scan d sb = some n)
    (h2 : free_slot_scan
      (writeBytes d (inode_offset sb n) (new_dir_inode_bytes now))
      ((parse_inode d sb 1).i_zone.getD 0 0) width = some off) :
    (create_new_directory d sb dirname width now).2
      = some MkdirErr.pyKeyError_nzones := by
  unfold create_new_directory
  rw [h1]
  dsimp only
  rw [h2]

/-- C1 witness: on the Scenario-A image (free inode 2, free root slot at
offset 16, free data blocks available), `mkdir` aborts with the
`KeyError`. -/
theorem c1_create_directory_keyerror_witness :
    free_inode_scan imgA sbA = some 2 ∧
    free_slot_scan
        (writeBytes imgA (inode_offset sbA 2) (new_dir_inode_bytes 0))
        ((parse_inode imgA sbA 1).i_zone.getD 0 0) 14 = some 16 ∧
    (create_new_directory imgA sbA nmSub 14 0).2
      = some MkdirErr.pyKeyError_nzones :=
  ⟨by decide, by decide,
    c1_create_directory_keyerror imgA sbA nmSub 14 0 2 16 (by decide) (by decide)⟩

/-- C2 (code bug): whenever the append scan finds the filename in the
directory, `append_to_file` aborts with the `TypeError` of the
three-argument call `read_file_data(file, sb_dict, file_inode)` (source
line 376) before writing anything; no content is rewritten and the inode
is not updated. -/
theorem c2_append_type_error (d : Disk) (sb : Superblock)
    (dir_inode_number : Nat) (filename data : List Nat) (width now : Nat)
    (h : (find_inode_of_directory d sb filename width dir_inode_number).isSome
      = true) :
    append_to_file d sb dir_inode_number filename data width now
      = (d, some AppendErr.pyTypeError_readFileData) := by
  cases hf : find_inode_of_directory d sb filename width dir_inode_number with
  | none => rw [hf] at h; simp at h
  | some k => simp [append_to_file, hf]

/-- C2 witness: appending to `foo` (present in the root of the
Scenario-A image) aborts with the `TypeError` and leaves the image
unchanged. -/
theorem c2_append_type_error_witness :
    (find_inode_of_directory imgA sbA nmFoo 14 1).isSome = true ∧
    append_to_file imgA sbA 1 nmFoo [65, 66] 14 0
      = (imgA, some AppendErr.pyTypeError_readFileData) :=
  ⟨by decide, c2_append_type_error imgA sbA 1 nmFoo [65, 66] 14 0 (by decide)⟩

/-- C3 (code bug): two error kinds never surface as controlled outcomes:
on the Scenario-A image, `create_new_directory` aborts with the
`KeyError` of `sb_dict["nzones"]` instead of ever reporting
`NoFreeDataBlocks`, and `append_to_file` on an existing file aborts with
the `TypeError` of the three-argument `read_file_data` call. -/
theorem c3_uncontrolled_aborts :
    (create_new_directory imgA sbA nmSub 14 0).2
        = some MkdirErr.pyKeyError_nzones ∧
      (append_to_file imgA sbA 1 nmFoo [65, 66] 14 0).2
        = some AppendErr.pyTypeError_readFileData :=
  ⟨by decide, by decide⟩

/-- C4 counterexample: in `imgE`, block 6 of the root holds a cleared
entry (inode 0) whose stale name field reads `x`, followed by a live
entry mapping `x` to inode 7.  The claim (lookup skips inode-0 records)
predicts `some 7`; the code returns the cleared entry's inode number 0. -/
theorem c4_lookup_counterexample :
    find_inode_of_directory imgE sbE nmX 14 1 = some 0 ∧
    ¬ find_inode_of_directory imgE sbE nmX 14 1 = some 7 :=
  ⟨by decide, by decide⟩

/-- C4 amended: lookup scans all allocated zones in block order then
in-block order and returns the inode number of the FIRST entry whose
trimmed name equals the target byte-for-byte, without skipping entries
whose inode number is 0 (so it can return 0 for a cleared slot); absence
of any name match is the not-found outcome `none`. -/
theorem c4_lookup_first_name_match (d : Disk) (sb : Superblock)
    (name : List Nat) (width root_inode_number : Nat) :
    find_inode_of_directory d sb name width root_inode_number
      = ((all_dir_entries d sb width root_inode_number).find?
          (fun e => e.2 == name)).map Prod.fst ∧
    (find_inode_of_directory d sb name width root_inode_number = none ↔
      ∀ e ∈ all_dir_entries d sb width root_inode_number, ¬ e.2 = name) := by
  have key : find_inode_of_directory d sb name width root_inode_number
      = ((all_dir_entries d sb width root_inode_number).find?
          (fun e => e.2 == name)).map Prod.fst := by
    rw [find_inode_of_directory, all_dir_entries, List.find?_flatMap,
      option_map_findSome?]
    congr 1
    funext z
    by_cases hz : z = 0
    · simp [hz]
    · rw [if_pos hz, if_pos hz, block_find,
        findSome?_guard_eq_find?_map
          (fun off => le16At (readBytes d (z * BLOCK_SIZE) BLOCK_SIZE) off)
          (fun off =>
            rstripZeros
              (entry_name (readBytes d (z * BLOCK_SIZE) BLOCK_SIZE) off width))
          name (dir_offsets width),
        List.find?_map]
      rw [Option.map_map]
      rfl
  refine ⟨key, ?_⟩
  rw [key]
  simp [List.find?_eq_none]

/-- C5 counterexample: in `imgF` the root directory owns two zones
(slot 0 = block 6, slot 1 = block 7); every entry of block 6 is in use
while block 7 (an allocated zone of the directory) has a free entry at
offset 0.  The claim (the search scans ALL allocated zones and only
exhaustion of every allocated zone is "directory full") predicts
success; the code reports "directory full". -/
theorem c5_slot_scan_counterexample :
    (parse_inode imgF sbF 1).i_zone.getD 1 0 = 7 ∧
    le16At (readBytes imgF (7 * BLOCK_SIZE) BLOCK_SIZE) 0 = 0 ∧
    (create_new_file imgF sbF nmBar 14 0).2 = some CreateErr.noFreeDirEntry :=
  ⟨by decide, by decide, by decide⟩

/-- C5 amended: the free-directory-slot search scans ONLY the block at
the directory's first zone slot, in in-block offset order, returning the
first entry whose inode number is 0; exhaustion of that single block is
the "directory full" condition (other allocated zones are never
examined, and no zone is ever allocated to grow the directory). -/
theorem c5_slot_scan_first_zone_only :
    (∀ (d : Disk) (block width off : Nat),
      free_slot_scan d block width = some off →
        le16At (readBytes d (block * BLOCK_SIZE) BLOCK_SIZE) off = 0 ∧
          off ∈ dir_offsets width ∧
          ∀ off' ∈ dir_offsets width, off' < off →
            le16At (readBytes d (block * BLOCK_SIZE) BLOCK_SIZE) off' ≠ 0) ∧
    (∀ (d : Disk) (block width : Nat),
      free_slot_scan d block width = none ↔
        ∀ off ∈ dir_offsets width,
          le16At (readBytes d (block * BLOCK_SIZE) BLOCK_SIZE) off ≠ 0) ∧
    (∀ (d : Disk) (sb : Superblock) (filename : List Nat) (width now n : Nat),
      free_inode_scan d sb = some n →
        ((create_new_file d sb filename width now).2
            = some CreateErr.noFreeDirEntry ↔
          free_slot_scan
              (writeBytes d (inode_offset sb n) (new_file_inode_bytes now))
              ((parse_inode d sb 1).i_zone.getD 0 0) width = none)) := by
  refine ⟨?_, ?_, ?_⟩
  · intro d block width off h
    obtain ⟨hp, hmem, hfirst⟩ :=
      find?_range'_first
        (fun o => le16At (readBytes d (block * BLOCK_SIZE) BLOCK_SIZE) o == 0)
        (2 + width) ((BLOCK_SIZE + (2 + width) - 1) / (2 + width)) 0 off h
    refine ⟨by simpa using hp, hmem, ?_⟩
    intro off' hmem' hlt
    have := hfirst off' hmem' hlt
    simpa using this
  · intro d block width
    rw [free_slot_scan, List.find?_eq_none]
    constructor
    · intro h off hmem
      simpa using h off hmem
    · intro h off hmem
      simpa using h off hmem
  · intro d sb filename width now n h
    unfold create_new_file
    rw [h]
    dsimp only
    cases hs : free_slot_scan
        (writeBytes d (inode_offset sb n) (new_file_inode_bytes now))
        ((parse_inode d sb 1).i_zone.getD 0 0) width with
    | none => simp
    | some o => simp

/-- C5 witness: on the Scenario-A image the scan of block 6 returns
offset 16 (whose entry is free, every earlier entry in use), and with
free inode 2 found, `create_new_file` succeeds exactly because that
first-zone scan succeeds. -/
theorem c5_slot_scan_first_zone_only_witness :
    (le16At (readBytes imgA (6 * BLOCK_SIZE) BLOCK_SIZE) 16 = 0 ∧
      16 ∈ dir_offsets 14 ∧
      ∀ off' ∈ dir_offsets 14, off' < 16 →
        le16At (readBytes imgA (6 * BLOCK_SIZE) BLOCK_SIZE) off' ≠ 0) ∧
    ((create_new_file imgA sbA nmBar 14 0).2 = some CreateErr.noFreeDirEntry ↔
      free_slot_scan
          (writeBytes imgA (inode_offset sbA 2) (new_file_inode_bytes 0))
          ((parse_inode imgA sbA 1).i_zone.getD 0 0) 14 = none) :=
  ⟨c5_slot_scan_first_zone_only.1 imgA 6 14 16 (by decide),
    c5_slot_scan_first_zone_only.2.2 imgA sbA nmBar 14 0 2 (by decide)⟩

/-- C8: for valid inode numbers, decoding the 32-byte record read back
from the computed inode-table offset round-trips every field (mode, uid,
size, mtime, gid, nlinks and all nine zone slots) of a record most
recently encoded and written at that offset. -/
theorem c8_inode_record_roundtrip (d : Disk) (sb : Superblock)
    (n mode uid size time gid nlinks z0 z1 z2 z3 z4 z5 z6 z7 z8 : Nat)
    (hn : 1 ≤ n ∧ n ≤ sb.num_inodes)
    (hb : mode < 65536 ∧ uid < 65536 ∧ size < 4294967296 ∧
      time < 4294967296 ∧ gid < 256 ∧ nlinks < 256 ∧ z0 < 65536 ∧
      z1 < 65536 ∧ z2 < 65536 ∧ z3 < 65536 ∧ z4 < 65536 ∧ z5 < 65536 ∧
      z6 < 65536 ∧ z7 < 65536 ∧ z8 < 65536) :
    parse_inode
        (writeBytes d (inode_offset sb n)
          (pack_inode mode uid size time gid nlinks
            [z0, z1, z2, z3, z4, z5, z6, z7, z8]))
        sb n
      = ⟨mode, uid, size, time, gid, nlinks,
          [z0, z1, z2, z3, z4, z5, z6, z7, z8]⟩ := by
  have hlen : (pack_inode mode uid size time gid nlinks
      [z0, z1, z2, z3, z4, z5, z6, z7, z8]).length = INODE_SIZE := by
    simp [pack_inode, le16, le32, INODE_SIZE]
  rw [parse_inode, readBytes_writeBytes _ _ _ _ hlen]
  obtain ⟨b1, b2, b3, b4, b5, b6, b7, b8, b9, b10, b11, b12, b13, b14, b15⟩ := hb
  show Inode.mk
      (mode % 256 + 256 * (mode / 256 % 256))
      (uid % 256 + 256 * (uid / 256 % 256))
      (size % 256 + 256 * (size / 256 % 256) + 65536 * (size / 65536 % 256)
        + 16777216 * (size / 16777216 % 256))
      (time % 256 + 256 * (time / 256 % 256) + 65536 * (time / 65536 % 256)
        + 16777216 * (time / 16777216 % 256))
      gid nlinks
      [z0 % 256 + 256 * (z0 / 256 % 256), z1 % 256 + 256 * (z1 / 256 % 256),
       z2 % 256 + 256 * (z2 / 256 % 256), z3 % 256 + 256 * (z3 / 256 % 256),
       z4 % 256 + 256 * (z4 / 256 % 256), z5 % 256 + 256 * (z5 / 256 % 256),
       z6 % 256 + 256 * (z6 / 256 % 256), z7 % 256 + 256 * (z7 / 256 % 256),
       z8 % 256 + 256 * (z8 / 256 % 256)]
      = _
  simp only [Inode.mk.injEq, List.cons.injEq, and_true, true_and]
  omega

/-- C8 witness: a concrete record written for inode 1 of the Scenario-A
image reads back field-for-field. -/
theorem c8_inode_record_roundtrip_witness :
    ((1 : Nat) ≤ 1 ∧ 1 ≤ sbA.num_inodes) ∧
    ((33216 : Nat) < 65536 ∧ (7 : Nat) < 65536 ∧ (70000 : Nat) < 4294967296 ∧
      (123456789 : Nat) < 4294967296 ∧ (3 : Nat) < 256 ∧ (1 : Nat) < 256 ∧
      (9 : Nat) < 65536 ∧ (8 : Nat) < 65536 ∧ (300 : Nat) < 65536 ∧
      (6 : Nat) < 65536 ∧ (5 : Nat) < 65536 ∧ (4 : Nat) < 65536 ∧
      (3 : Nat) < 65536 ∧ (2 : Nat) < 65536 ∧ (65535 : Nat) < 65536) ∧
    parse_inode
        (writeBytes imgA (inode_offset sbA 1)
          (pack_inode 33216 7 70000 123456789 3 1 [9, 8, 300, 6, 5, 4, 3, 2, 65535]))
        sbA 1
      = ⟨33216, 7, 70000, 123456789, 3, 1, [9, 8, 300, 6, 5, 4, 3, 2, 65535]⟩ :=
  ⟨by decide, by decide,
    c8_inode_record_roundtrip imgA sbA 1 33216 7 70000 123456789 3 1
      9 8 300 6 5 4 3 2 65535 (by decide) (by decide)⟩
